import Mathlib

/-!
Shallow embedding of `src/shared/integrate-fedify.ts`: the ActivityPub
integration of a single-actor photo blog.  Pure data (activities, notes,
follower records) is embedded as Lean structures; the stateful handlers
(inbox listeners, outbox publisher callbacks) are embedded as functions
returning the ordered list of effects (outbound deliveries and key-value
store mutations) they perform.  External collaborators (the content
repository `getPhoto`/`getPhotos`, the remote-actor resolver, the fresh
UUID source and the current clock) are passed in as parameters, matching
the spec's interface boundary.  JavaScript numbers used for EXIF metadata
are modelled as integers (their truthiness, all that the code inspects,
is `n ≠ 0`).
-/

namespace Fedify

/-- The single configured actor handle (`const activityPubHandle = 'me'`). -/
def activityPubHandle : String := "me"

/-- The `PUBLIC_COLLECTION` constant of the federation library: the public addressing URI. -/
def publicCollection : String := "https://www.w3.org/ns/activitystreams#Public"

/-- The request context: only the base URL matters for the embedded code
(`federation.createContext(baseUrl, null)`). -/
structure Ctx where
  baseUrl : String
deriving DecidableEq

/-- URI template `/users/{identifier}` (`ctx.getActorUri`). -/
def getActorUri (base identifier : String) : String :=
  base ++ "/users/" ++ identifier

/-- URI template `/users/{identifier}/inbox` (`ctx.getInboxUri`). -/
def getInboxUri (base identifier : String) : String :=
  base ++ "/users/" ++ identifier ++ "/inbox"

/-- URI template `/users/{identifier}/outbox` (`ctx.getOutboxUri`). -/
def getOutboxUri (base identifier : String) : String :=
  base ++ "/users/" ++ identifier ++ "/outbox"

/-- URI template `/users/{identifier}/followers` (`ctx.getFollowersUri`). -/
def getFollowersUri (base identifier : String) : String :=
  base ++ "/users/" ++ identifier ++ "/followers"

/-- URI template `/notes/{noteId}` (`ctx.getObjectUri(Note, { noteId })`). -/
def getNoteUri (base noteId : String) : String :=
  base ++ "/notes/" ++ noteId

/-- Embedding of `new URL('#' + frag, base)` for a base URI without query or fragment:
the base URI with the fragment appended. -/
def fragmentUrl (base frag : String) : String :=
  base ++ "#" ++ frag

/-- Result of `ctx.parseUri`: which registered URI template the URI matches. -/
inductive ParsedUri where
  | actor (identifier : String)
  | object (noteId : String)
deriving DecidableEq

/-- Does the second character list begin with the first? -/
def charsBeginWith : List Char → List Char → Bool
  | [], _ => true
  | _ :: _, [] => false
  | c :: cs, d :: ds => c = d && charsBeginWith cs ds

/-- Embedding of `ctx.parseUri`: invert the registered URI templates.  A URI below
`/users/` with a bare identifier parses as an actor URI; one below
`/notes/` as a note object URI; anything else (including the inbox,
outbox and followers sub-paths) is not one of the two kinds the inbox
listeners accept. -/
def parseUri (base uri : String) : Option ParsedUri :=
  let actorBase := (base ++ "/users/").data
  let noteBase := (base ++ "/notes/").data
  let u := uri.data
  if charsBeginWith actorBase u then
    let ident := u.drop actorBase.length
    if ident.isEmpty || ident.contains '/' then none
    else some (ParsedUri.actor ⟨ident⟩)
  else if charsBeginWith noteBase u then
    let nid := u.drop noteBase.length
    if nid.isEmpty || nid.contains '/' then none
    else some (ParsedUri.object ⟨nid⟩)
  else none

/-- The projection of a `Photo` record (from `@/photo`) that the embedded
code reads: identifier, optional title, media URL, timestamps in epoch
milliseconds, visibility flag and the optional numeric EXIF fields. -/
structure Photo where
  id : String
  title : Option String
  url : String
  createdAtMs : Int
  updatedAtMs : Int
  hidden : Bool
  iso : Option Int
  focalLength : Option Int
deriving DecidableEq

/-- A metadata `PropertyValue` attachment. -/
structure PropertyValue where
  name : String
  value : String
deriving DecidableEq

/-- An `Image` attachment carrying the metadata property values. -/
structure Image where
  mediaType : String
  url : String
  attachments : List PropertyValue
deriving DecidableEq

/-- A `Note` object as built by `createNote`. -/
structure NoteObj where
  id : String
  url : String
  summary : Option String
  content : String
  attribution : String
  toUri : String
  ccUri : String
  publishedMs : Int
  updatedMs : Int
  attachments : List Image
deriving DecidableEq

/-- Embedding of the element `photo.iso && new PropertyValue(...)` of the
attachment array, combined with the trailing `.filter(Boolean)`:
a numeric field contributes a property exactly when it is truthy, i.e.
present and non-zero; the value is its display string. -/
def numericProp (propName : String) (v : Option Int) : Option PropertyValue :=
  match v with
  | none => none
  | some n => if n = 0 then none else some { name := propName, value := toString n }

/-- Embedding of `createNote(ctx, photo)` from `integrate-fedify.ts`. -/
def createNote (ctx : Ctx) (photo : Photo) : NoteObj :=
  { id := getNoteUri ctx.baseUrl photo.id
    url := getNoteUri ctx.baseUrl photo.id
    summary := none
    content := photo.title.getD "Untitled"
    attribution := getActorUri ctx.baseUrl activityPubHandle
    toUri := publicCollection
    ccUri := getFollowersUri ctx.baseUrl activityPubHandle
    publishedMs := photo.createdAtMs
    updatedMs := photo.updatedAtMs
    attachments :=
      [{ mediaType := "image/jpeg"
         url := photo.url
         attachments :=
           [numericProp "ISO" photo.iso,
            numericProp "Focal Length" photo.focalLength].filterMap id }] }

/-- A `Create` activity as built by `createActivity`.  The constructor call
sets only `to`; `cc` is left unset (`none`). -/
structure CreateActivity where
  id : String
  actor : String
  publishedMs : Int
  toUri : String
  ccUri : Option String
  object : NoteObj
deriving DecidableEq

/-- Embedding of `createActivity(ctx, photo)`; the fresh `randomUUID()` is passed in as
`uuid`. -/
def createActivity (ctx : Ctx) (photo : Photo) (uuid : String) : CreateActivity :=
  { id := fragmentUrl (getNoteUri ctx.baseUrl photo.id) uuid
    actor := getActorUri ctx.baseUrl activityPubHandle
    publishedMs := photo.createdAtMs
    toUri := publicCollection
    ccUri := none
    object := createNote ctx photo }

/-- Whether a Create activity is addressed to a URI through either of its
addressing fields. -/
def activityAddressedTo (a : CreateActivity) (uri : String) : Bool :=
  a.toUri = uri || a.ccUri = some uri

/-- An `Update` activity as built inline by `photoUpdated`. -/
structure UpdateActivity where
  id : String
  actor : String
  publishedMs : Int
  toUri : String
  object : NoteObj
deriving DecidableEq

/-- A `Delete` activity as built inline by `photoDeleted`: its object is a
bare note URI reference, not a note. -/
structure DeleteActivity where
  id : String
  actor : String
  publishedMs : Int
  toUri : String
  object : String
deriving DecidableEq

/-- An inbound `Follow` activity as the listener reads it: the three
nullable properties it probes. -/
structure FollowActivity where
  id : Option String
  actorId : Option String
  objectId : Option String
deriving DecidableEq

/-- An `Accept` reply (`new Accept({ actor: follow.objectId, object: follow })`). -/
structure AcceptActivity where
  actor : String
  object : FollowActivity
deriving DecidableEq

/-- The object wrapped by an inbound `Undo`, as probed by
`follow instanceof Follow`. -/
inductive UndoObject where
  | follow (f : FollowActivity)
  | other
deriving DecidableEq

/-- An inbound `Undo` activity: its actor URI and its wrapped object
(`undo.getObject()`, `none` when absent or unresolvable). -/
structure UndoActivity where
  actorId : Option String
  object : Option UndoObject
deriving DecidableEq

/-- A resolved remote actor (`follow.getActor(ctx)`): the fields the
listener reads off the fetched Actor object. -/
structure RemoteActor where
  id : Option String
  inboxId : Option String
  sharedInbox : Option String
deriving DecidableEq

/-- The follower record stored under `['followers', actorId.href]`. -/
structure FollowerRecord where
  id : Option String
  inboxId : Option String
  sharedInbox : Option String
deriving DecidableEq

/-- The record the Follow listener persists for a resolved remote actor. -/
def RemoteActor.toRecord (a : RemoteActor) : FollowerRecord :=
  { id := a.id, inboxId := a.inboxId, sharedInbox := a.sharedInbox }

/-- An outbound activity payload handed to `ctx.sendActivity`. -/
inductive Activity where
  | accept (a : AcceptActivity)
  | create (a : CreateActivity)
  | update (a : UpdateActivity)
  | delete (a : DeleteActivity)
deriving DecidableEq

/-- The recipient argument of `ctx.sendActivity`: a concrete remote actor,
or the string `'followers'` meaning fan-out to the followers collection. -/
inductive SendTarget where
  | actor (a : RemoteActor)
  | followers
deriving DecidableEq

/-- One observable effect of a handler, in program order: an outbound
delivery (`ctx.sendActivity`) or a mutation of the `['followers', _]`
region of the key-value store. -/
inductive Effect where
  | send (senderIdentifier : String) (target : SendTarget) (activity : Activity)
  | kvSetFollower (actorUri : String) (record : FollowerRecord)
  | kvDeleteFollower (actorUri : String)
deriving DecidableEq

/-- Is the effect an outbound delivery? -/
def isDeliverySend : Effect → Bool
  | .send _ _ _ => true
  | _ => false

/-- Is the effect the delivery of an `Accept` activity? -/
def isAcceptSend : Effect → Bool
  | .send _ _ (.accept _) => true
  | _ => false

/-- Is the effect a follower-directory insertion? -/
def isFollowerAdd : Effect → Bool
  | .kvSetFollower _ _ => true
  | _ => false

/-- Does some follower-directory insertion occur strictly before some
`Accept` delivery in the effect trace? -/
def addBeforeAccept : List Effect → Bool
  | [] => false
  | e :: rest =>
    (isFollowerAdd e && rest.any isAcceptSend) || addBeforeAccept rest

/-- The follower directory: the `['followers', uri] ↦ record` region of the
key-value store, as an association list keyed by the remote actor URI. -/
abbrev Followers := List (String × FollowerRecord)

/-- Look a follower up by remote actor URI. -/
def lookupFollower : Followers → String → Option FollowerRecord
  | [], _ => none
  | (k, v) :: rest, key => if k = key then some v else lookupFollower rest key

/-- Embedding of `kv.delete(['followers', key])`: remove every binding of the key. -/
def kvRemove : Followers → String → Followers
  | [], _ => []
  | (k, v) :: rest, key =>
    if k = key then kvRemove rest key else (k, v) :: kvRemove rest key

/-- Embedding of `kv.set(['followers', key], v)`: bind the key to `v`, replacing any
prior binding. -/
def kvUpsert (fs : Followers) (key : String) (v : FollowerRecord) : Followers :=
  (key, v) :: kvRemove fs key

/-- Apply one effect to the follower directory (deliveries leave it alone). -/
def applyEffect (fs : Followers) : Effect → Followers
  | .send _ _ _ => fs
  | .kvSetFollower k v => kvUpsert fs k v
  | .kvDeleteFollower k => kvRemove fs k

/-- Apply a handler's effect trace to the follower directory, in order. -/
def applyEffects (fs : Followers) (es : List Effect) : Followers :=
  es.foldl applyEffect fs

/-- The `Follow` inbox listener.  `resolve` is the remote-actor fetch
collaborator behind `follow.getActor(ctx)`.  Returns the ordered effect
trace the listener performs. -/
def onFollow (ctx : Ctx) (resolve : String → Option RemoteActor)
    (follow : FollowActivity) : List Effect :=
  match follow.id, follow.actorId, follow.objectId with
  | some _, some actorId, some objectId =>
    match parseUri ctx.baseUrl objectId with
    | some (ParsedUri.actor ident) =>
      if ident = activityPubHandle then
        match resolve actorId with
        | some follower =>
          [Effect.send activityPubHandle (SendTarget.actor follower)
            (Activity.accept { actor := objectId, object := follow }),
           Effect.kvSetFollower actorId follower.toRecord]
        | none => []
      else []
    | _ => []
  | _, _, _ => []

/-- The `Undo` inbox listener: on an Undo wrapping a Follow with an id,
an outer actor URI and an object URI parsing to this actor, delete the
follower record keyed by the outer Undo's actor URI. -/
def onUndo (ctx : Ctx) (undo : UndoActivity) : List Effect :=
  match undo.object with
  | some (UndoObject.follow f) =>
    match f.id with
    | none => []
    | some _ =>
      match undo.actorId, f.objectId with
      | some undoActorId, some objectId =>
        match parseUri ctx.baseUrl objectId with
        | some (ParsedUri.actor ident) =>
          if ident = activityPubHandle then
            [Effect.kvDeleteFollower undoActorId]
          else []
        | _ => []
      | _, _ => []
  | _ => []

/-- Embedding of `photoCreated(photoId)`: fetch the photo; skip when missing or hidden;
otherwise send one Create activity to the followers collection. -/
def photoCreated (ctx : Ctx) (getPhoto : String → Option Photo)
    (uuid : String) (photoId : String) : List Effect :=
  match getPhoto photoId with
  | none => []
  | some photo =>
    if photo.hidden then []
    else
      [Effect.send activityPubHandle SendTarget.followers
        (Activity.create (createActivity ctx photo uuid))]

/-- Embedding of `photoUpdated(photoId)`: fetch the photo; skip when missing or hidden;
otherwise send one Update activity (published at the current clock) to
the followers collection. -/
def photoUpdated (ctx : Ctx) (getPhoto : String → Option Photo)
    (uuid : String) (nowMs : Int) (photoId : String) : List Effect :=
  match getPhoto photoId with
  | none => []
  | some photo =>
    if photo.hidden then []
    else
      [Effect.send activityPubHandle SendTarget.followers
        (Activity.update
          { id := fragmentUrl (getNoteUri ctx.baseUrl photoId) uuid
            actor := getActorUri ctx.baseUrl activityPubHandle
            publishedMs := nowMs
            toUri := publicCollection
            object := createNote ctx photo })]

/-- Embedding of `photoDeleted(photoId)`: no photo lookup at all; always send one Delete
activity (whose object is the bare note URI) to the followers collection. -/
def photoDeleted (ctx : Ctx) (uuid : String) (nowMs : Int)
    (photoId : String) : List Effect :=
  [Effect.send activityPubHandle SendTarget.followers
    (Activity.delete
      { id := fragmentUrl (getNoteUri ctx.baseUrl photoId) uuid
        actor := getActorUri ctx.baseUrl activityPubHandle
        publishedMs := nowMs
        toUri := publicCollection
        object := getNoteUri ctx.baseUrl photoId })]

/-- Opaque cryptographic key material, as the bytes of one key.  The
crypto collaborator (`generateCryptoKeyPair`/`exportJwk`/`importJwk`)
is assumed correct, so export and import are modelled as a lossless
round trip on the material. -/
def CryptoKey := String
deriving instance DecidableEq for CryptoKey

/-- Key material in portable JWK interchange form. -/
def Jwk := String
deriving instance DecidableEq for Jwk

/-- Embedding of `exportJwk`: serialize key material to JWK form (lossless). -/
def exportJwk (k : CryptoKey) : Jwk := k

/-- Embedding of `importJwk`: deserialize key material from JWK form (inverse of
`exportJwk`). -/
def importJwk (j : Jwk) : CryptoKey := j

/-- A signing key pair (`{ privateKey, publicKey }`). -/
structure KeyPair where
  privateKey : CryptoKey
  publicKey : CryptoKey
deriving DecidableEq

/-- The entry stored under `['key']` in the key-value store: the pair
exported to JWK form. -/
structure StoredKeyEntry where
  privateKey : Jwk
  publicKey : Jwk
deriving DecidableEq

/-- The key pairs dispatcher (`setKeyPairsDispatcher`).  `fresh` is the
pair `generateCryptoKeyPair` would produce on this call; `store` is the
`['key']` entry of the key-value store.  Returns the dispatched key
pairs together with the post-call store: on a first call for the
configured handle the generated pair is written to the store (the
`kv.set` precedes the return), on later calls the stored entry is
imported and the store is untouched. -/
def keyPairsDispatcher (fresh : KeyPair) (store : Option StoredKeyEntry)
    (identifier : String) : List KeyPair × Option StoredKeyEntry :=
  if identifier ≠ activityPubHandle then ([], store)
  else
    match store with
    | none =>
      ([fresh],
       some { privateKey := exportJwk fresh.privateKey
              publicKey := exportJwk fresh.publicKey })
    | some entry =>
      ([{ privateKey := importJwk entry.privateKey
          publicKey := importJwk entry.publicKey }], store)

/-- The actor descriptor (`new Person({...})`) built by the actor
dispatcher. -/
structure Person where
  id : String
  name : String
  summary : String
  preferredUsername : String
  url : String
  inbox : String
  outbox : String
  followers : String
  publicKeys : List CryptoKey
deriving DecidableEq

/-- The actor dispatcher (`setActorDispatcher('/users/{identifier}', ...)`):
`null` for every identifier other than the configured handle; otherwise
the Person descriptor with the static identity fields, the collection
URIs derived from the identifier, and the public halves of the key pairs
from the key pairs dispatcher. -/
def actorDispatcher (ctx : Ctx) (fresh : KeyPair) (store : Option StoredKeyEntry)
    (identifier : String) : Option Person :=
  if identifier ≠ activityPubHandle then none
  else
    some
      { id := getActorUri ctx.baseUrl identifier
        name := "Me"
        summary := "This is my photo!"
        preferredUsername := identifier
        url := ctx.baseUrl ++ "/"
        inbox := getInboxUri ctx.baseUrl identifier
        outbox := getOutboxUri ctx.baseUrl identifier
        followers := getFollowersUri ctx.baseUrl identifier
        publicKeys := (keyPairsDispatcher fresh store identifier).1.map
          (fun kp => kp.publicKey) }

/-- Modelled from the spec: `getPhotos` lives in `@/photo/db/query`, which
is outside the provided sources; §6 specifies the content repository's
`listPublic() -> sequence of ContentRecord`, so it returns exactly the
non-hidden records of the repository. -/
def getPhotos (repo : List Photo) : List Photo :=
  repo.filter (fun p => !p.hidden)

/-- Modelled from the spec: `getPhotosMeta().count` lives in
`@/photo/db/query`, outside the provided sources; §6 specifies
`countPublic() -> integer`, the total public content count. -/
def getPhotosMetaCount (repo : List Photo) : Nat :=
  (repo.filter (fun p => !p.hidden)).length

/-- One page of the outbox collection. -/
structure OutboxPage where
  items : List CreateActivity
  nextCursor : Option String
deriving DecidableEq

/-- The outbox dispatcher (`setOutboxDispatcher`): `null` for identifiers
other than the configured handle; otherwise every photo from `getPhotos`
mapped through `createActivity`, with `nextCursor: null`.  The supplied
cursor is ignored by the source, which never reads it.  `uuidOf` gives
the fresh `randomUUID()` drawn while translating each photo. -/
def outboxDispatcher (ctx : Ctx) (repo : List Photo) (uuidOf : String → String)
    (identifier : String) (_cursor : Option String) : Option OutboxPage :=
  if identifier ≠ activityPubHandle then none
  else
    some
      { items := (getPhotos repo).map (fun p => createActivity ctx p (uuidOf p.id))
        nextCursor := none }

/-- The outbox counter (`setCounter`): `null` for other identifiers,
otherwise `getPhotosMeta().count`. -/
def outboxCounter (repo : List Photo) (identifier : String) : Option Nat :=
  if identifier ≠ activityPubHandle then none
  else some (getPhotosMetaCount repo)

/-- Follow the outbox pagination from a cursor until `nextCursor` is null,
concatenating the items; `fuel` bounds the number of pages requested. -/
def collectPages (ctx : Ctx) (repo : List Photo) (uuidOf : String → String) :
    Nat → Option String → List CreateActivity
  | 0, _ => []
  | fuel + 1, cursor =>
    match outboxDispatcher ctx repo uuidOf activityPubHandle cursor with
    | none => []
    | some page =>
      match page.nextCursor with
      | none => page.items
      | some c => page.items ++ collectPages ctx repo uuidOf fuel (some c)

/-! Concrete instances used to exercise the embedded operations. -/

/-- A concrete request context. -/
def ctxEx : Ctx := { baseUrl := "https://example.com" }

/-- A concrete structurally valid inbound Follow addressed to the
configured actor. -/
def followEx : FollowActivity :=
  { id := some "https://remote.example/follows/1"
    actorId := some "https://remote.example/users/alice"
    objectId := some "https://example.com/users/me" }

/-- The resolved profile of the remote actor behind `followEx`. -/
def remoteEx : RemoteActor :=
  { id := some "https://remote.example/users/alice"
    inboxId := some "https://remote.example/users/alice/inbox"
    sharedInbox := none }

/-- A concrete remote-actor resolver that resolves exactly `followEx`'s
actor. -/
def resolveEx : String → Option RemoteActor := fun uri =>
  if uri = "https://remote.example/users/alice" then some remoteEx else none

/-- A concrete Undo of `followEx` by the same remote actor. -/
def undoEx : UndoActivity :=
  { actorId := some "https://remote.example/users/alice"
    object := some (UndoObject.follow followEx) }

/-- A Follow identical to `followEx` except that it carries no id. -/
def followNoIdEx : FollowActivity :=
  { id := none
    actorId := some "https://remote.example/users/alice"
    objectId := some "https://example.com/users/me" }

/-- An Undo wrapping `followNoIdEx`: it references the configured actor
and carries an actor URI, but its wrapped Follow has no id. -/
def undoNoIdEx : UndoActivity :=
  { actorId := some "https://remote.example/users/alice"
    object := some (UndoObject.follow followNoIdEx) }

/-- A follower directory holding exactly the record for `followEx`'s
actor. -/
def followersEx : Followers :=
  [("https://remote.example/users/alice", remoteEx.toRecord)]

/-- A concrete public (non-hidden) photo. -/
def publicPhotoEx : Photo :=
  { id := "p0", title := some "Sunrise", url := "https://example.com/p0.jpg"
    createdAtMs := 1000, updatedAtMs := 1500, hidden := false
    iso := some 200, focalLength := some 50 }

/-- A concrete hidden photo. -/
def hiddenPhotoEx : Photo :=
  { id := "p1", title := some "Sunset", url := "https://example.com/p1.jpg"
    createdAtMs := 2000, updatedAtMs := 2500, hidden := true
    iso := some 100, focalLength := some 35 }

/-- A concrete photo with no title. -/
def untitledPhotoEx : Photo :=
  { id := "p2", title := none, url := "https://example.com/p2.jpg"
    createdAtMs := 3000, updatedAtMs := 3500, hidden := false
    iso := none, focalLength := none }

/-- A concrete photo whose title is the empty string. -/
def emptyTitlePhotoEx : Photo :=
  { id := "p3", title := some "", url := "https://example.com/p3.jpg"
    createdAtMs := 4000, updatedAtMs := 4500, hidden := false
    iso := none, focalLength := none }

/-- A concrete content repository: one hidden and one public photo. -/
def repoEx : List Photo := [publicPhotoEx, hiddenPhotoEx]

/-- A concrete per-photo UUID source. -/
def uuidOfEx : String → String := fun s => s ++ "-uuid"

/-- A concrete content lookup: resolves only `hiddenPhotoEx`'s id. -/
def getPhotoEx : String → Option Photo := fun s =>
  if s = "p1" then some hiddenPhotoEx else none

/-- Concrete key material. -/
def keyPairEx : KeyPair := { privateKey := "privbytes", publicKey := "pubbytes" }


/-! Helper lemmas. -/

/-- String concatenation cancels on the left. -/
theorem string_append_cancel_left {a b c : String} (h : a ++ b = a ++ c) : b = c := by
  have hd : a.data ++ b.data = a.data ++ c.data := by
    have := congrArg String.data h
    simpa using this
  cases b; cases c
  simp only [List.append_cancel_left_eq] at hd
  exact congrArg String.mk hd

/-- Removing a key makes it unbound. -/
theorem lookupFollower_kvRemove (fs : Followers) (k : String) :
    lookupFollower (kvRemove fs k) k = none := by
  induction fs with
  | nil => rfl
  | cons kv rest ih =>
    obtain ⟨k2, v⟩ := kv
    by_cases hk : k2 = k
    · simpa [kvRemove, hk] using ih
    · simpa [kvRemove, lookupFollower, hk] using ih

/-- Claim C1 (amended): on a structurally valid Follow whose object URI
parses to the configured actor and whose remote actor resolves, the
listener performs exactly two effects in this order: first the delivery
of one Accept (addressed to the resolved follower and wrapping the
original Follow), then the follower-directory insertion keyed by the
Follow's actor URI; applying the trace to any directory leaves the
follower present. -/
theorem onFollow_accept_then_add (ctx : Ctx) (resolve : String → Option RemoteActor)
    (f : FollowActivity) (fid aid oid : String) (follower : RemoteActor)
    (hid : f.id = some fid) (hact : f.actorId = some aid) (hobj : f.objectId = some oid)
    (hparse : parseUri ctx.baseUrl oid = some (ParsedUri.actor activityPubHandle))
    (hres : resolve aid = some follower) :
    onFollow ctx resolve f =
      [Effect.send activityPubHandle (SendTarget.actor follower)
        (Activity.accept { actor := oid, object := f }),
       Effect.kvSetFollower aid follower.toRecord] ∧
    ((onFollow ctx resolve f).filter isAcceptSend).length = 1 ∧
    ∀ fs : Followers,
      lookupFollower (applyEffects fs (onFollow ctx resolve f)) aid =
        some follower.toRecord := by
  have htrace : onFollow ctx resolve f =
      [Effect.send activityPubHandle (SendTarget.actor follower)
        (Activity.accept { actor := oid, object := f }),
       Effect.kvSetFollower aid follower.toRecord] := by
    simp [onFollow, hid, hact, hobj, hparse, hres]
  refine ⟨htrace, ?_, ?_⟩
  · rw [htrace]; rfl
  · intro fs
    rw [htrace]
    simp [applyEffects, applyEffect, kvUpsert, lookupFollower]

set_option maxRecDepth 10000 in
/-- Witness for C1 (amended), at the concrete Follow `followEx`. -/
theorem onFollow_accept_then_add_witness :
    onFollow ctxEx resolveEx followEx =
      [Effect.send activityPubHandle (SendTarget.actor remoteEx)
        (Activity.accept { actor := "https://example.com/users/me", object := followEx }),
       Effect.kvSetFollower "https://remote.example/users/alice" remoteEx.toRecord] :=
  (onFollow_accept_then_add ctxEx resolveEx followEx
    "https://remote.example/follows/1" "https://remote.example/users/alice"
    "https://example.com/users/me" remoteEx rfl rfl rfl (by decide) (by decide)).1

set_option maxRecDepth 10000 in
/-- Counterexample to C1 as stated: at the concrete valid Follow
`followEx` (all claim hypotheses hold), exactly one Accept is delivered
and the follower is added, but no directory add precedes the Accept
delivery — the code sends the Accept first and stores the follower
afterwards. -/
theorem follow_add_before_accept_false :
    followEx.id.isSome = true ∧ followEx.actorId.isSome = true ∧
    followEx.objectId = some "https://example.com/users/me" ∧
    parseUri ctxEx.baseUrl "https://example.com/users/me" =
      some (ParsedUri.actor activityPubHandle) ∧
    resolveEx "https://remote.example/users/alice" = some remoteEx ∧
    ((onFollow ctxEx resolveEx followEx).filter isAcceptSend).length = 1 ∧
    (onFollow ctxEx resolveEx followEx).any isFollowerAdd = true ∧
    addBeforeAccept (onFollow ctxEx resolveEx followEx) = false := by
  decide


/-- Claim C2 (amended): for hidden content, `photoCreated` and
`photoUpdated` skip entirely (no effect at all), while `photoDeleted`
always performs exactly one Delete delivery to the followers collection
regardless of visibility — it never consults the content record. -/
theorem hidden_content_skip_amended (ctx : Ctx) (getPhoto : String → Option Photo)
    (uuid : String) (nowMs : Int) (photoId : String) (p : Photo)
    (hget : getPhoto photoId = some p) (hhid : p.hidden = true) :
    photoCreated ctx getPhoto uuid photoId = [] ∧
    photoUpdated ctx getPhoto uuid nowMs photoId = [] ∧
    photoDeleted ctx uuid nowMs photoId =
      [Effect.send activityPubHandle SendTarget.followers
        (Activity.delete
          { id := fragmentUrl (getNoteUri ctx.baseUrl photoId) uuid
            actor := getActorUri ctx.baseUrl activityPubHandle
            publishedMs := nowMs
            toUri := publicCollection
            object := getNoteUri ctx.baseUrl photoId })] := by
  refine ⟨?_, ?_, rfl⟩
  · simp [photoCreated, hget, hhid]
  · simp [photoUpdated, hget, hhid]

set_option maxRecDepth 10000 in
/-- Witness for C2 (amended), at the concrete hidden photo `hiddenPhotoEx`. -/
theorem hidden_content_skip_amended_witness :
    photoCreated ctxEx getPhotoEx "u1" "p1" = [] ∧
    photoUpdated ctxEx getPhotoEx "u1" 5000 "p1" = [] :=
  ⟨(hidden_content_skip_amended ctxEx getPhotoEx "u1" 5000 "p1" hiddenPhotoEx
      (by decide) rfl).1,
   (hidden_content_skip_amended ctxEx getPhotoEx "u1" 5000 "p1" hiddenPhotoEx
      (by decide) rfl).2.1⟩

set_option maxRecDepth 10000 in
/-- Counterexample to C2 as stated: for the hidden photo stored under id
`p1`, `photoCreated` and `photoUpdated` perform zero deliveries, but
`photoDeleted` performs one — so not all three entry points skip. -/
theorem hidden_delete_still_delivers :
    getPhotoEx "p1" = some hiddenPhotoEx ∧
    hiddenPhotoEx.hidden = true ∧
    photoCreated ctxEx getPhotoEx "u1" "p1" = [] ∧
    photoUpdated ctxEx getPhotoEx "u1" 5000 "p1" = [] ∧
    ((photoDeleted ctxEx "u1" 5000 "p1").filter isDeliverySend).length = 1 := by
  decide

/-- Claim C3 (amended): the note's textual body equals the content title
whenever a title is present — including the empty string — and equals the
fixed default `"Untitled"` exactly when the title is absent. -/
theorem note_content_title_or_default (ctx : Ctx) (p : Photo) :
    (p.title = none → (createNote ctx p).content = "Untitled") ∧
    (∀ t, p.title = some t → (createNote ctx p).content = t) := by
  constructor
  · intro h; simp [createNote, h]
  · intro t h; simp [createNote, h]

/-- Witness for C3 (amended): a photo without a title gets the default
body, and a photo whose title is the empty string keeps the empty body. -/
theorem note_content_title_or_default_witness :
    (createNote ctxEx untitledPhotoEx).content = "Untitled" ∧
    (createNote ctxEx emptyTitlePhotoEx).content = "" :=
  ⟨(note_content_title_or_default ctxEx untitledPhotoEx).1 rfl,
   (note_content_title_or_default ctxEx emptyTitlePhotoEx).2 "" rfl⟩

set_option maxRecDepth 10000 in
/-- Counterexample to C3 as stated: the claim says an empty title yields
the default body, but for `emptyTitlePhotoEx` (title `some ""`) the body
is the empty string, not `"Untitled"` — `??` only tests nullishness. -/
theorem empty_title_keeps_empty_content :
    emptyTitlePhotoEx.title = some "" ∧
    (createNote ctxEx emptyTitlePhotoEx).content = "" ∧
    (createNote ctxEx emptyTitlePhotoEx).content ≠ "Untitled" := by
  decide

/-- Claim C4 (amended): the Create activity wraps the note from
`createNote`, its identifier is the note URI extended with the freshly
drawn fragment (distinct fragments give distinct identifiers), its
published timestamp is copied from the content's creation time, and it
is addressed publicly only — its `to` field is the public collection and
its `cc` field is unset, so the followers collection appears in the
enclosed note's addressing but not on the activity itself. -/
theorem create_activity_wraps_note (ctx : Ctx) (p : Photo) (u : String) :
    (createActivity ctx p u).object = createNote ctx p ∧
    (createActivity ctx p u).publishedMs = p.createdAtMs ∧
    (createActivity ctx p u).id = fragmentUrl (getNoteUri ctx.baseUrl p.id) u ∧
    (createActivity ctx p u).toUri = publicCollection ∧
    (createActivity ctx p u).ccUri = none ∧
    (∀ v : String, (createActivity ctx p u).id = (createActivity ctx p v).id → u = v) := by
  refine ⟨rfl, rfl, rfl, rfl, rfl, ?_⟩
  intro v h
  exact string_append_cancel_left h

/-- Witness for C4 (amended), discharging the identifier-equality
hypothesis at the concrete photo `publicPhotoEx`. -/
theorem create_activity_wraps_note_witness :
    (createActivity ctxEx publicPhotoEx "u1").object = createNote ctxEx publicPhotoEx ∧
    ("u1" : String) = "u1" :=
  ⟨(create_activity_wraps_note ctxEx publicPhotoEx "u1").1,
   (create_activity_wraps_note ctxEx publicPhotoEx "u1").2.2.2.2.2 "u1" rfl⟩

set_option maxRecDepth 10000 in
/-- Counterexample to C4 as stated: the concrete Create activity is
addressed to the public collection but not to the actor's followers
collection through either of its addressing fields. -/
theorem create_activity_not_addressed_to_followers :
    activityAddressedTo (createActivity ctxEx publicPhotoEx "u1") publicCollection = true ∧
    activityAddressedTo (createActivity ctxEx publicPhotoEx "u1")
      (getFollowersUri ctxEx.baseUrl activityPubHandle) = false := by
  decide

/-- Claim C5 (amended): on an Undo wrapping a Follow that has an id,
references the configured actor through its object URI, where the outer
Undo carries an actor URI, the listener performs exactly one effect: the
follower-directory deletion keyed by the outer Undo's actor URI; no
delivery is emitted, and after applying the trace the follower record is
gone from any directory. -/
theorem onUndo_removes_follower (ctx : Ctx) (u : UndoActivity) (f : FollowActivity)
    (fid aid oid : String)
    (hobj : u.object = some (UndoObject.follow f))
    (hfid : f.id = some fid)
    (hact : u.actorId = some aid)
    (hoid : f.objectId = some oid)
    (hparse : parseUri ctx.baseUrl oid = some (ParsedUri.actor activityPubHandle)) :
    onUndo ctx u = [Effect.kvDeleteFollower aid] ∧
    (onUndo ctx u).filter isDeliverySend = [] ∧
    ∀ fs : Followers, lookupFollower (applyEffects fs (onUndo ctx u)) aid = none := by
  have htrace : onUndo ctx u = [Effect.kvDeleteFollower aid] := by
    simp [onUndo, hobj, hfid, hact, hoid, hparse]
  refine ⟨htrace, ?_, ?_⟩
  · rw [htrace]; rfl
  · intro fs
    rw [htrace]
    simpa [applyEffects, applyEffect] using lookupFollower_kvRemove fs aid

set_option maxRecDepth 10000 in
/-- Witness for C5 (amended): undoing `followEx` deletes its follower
record and removes it from the concrete directory `followersEx`. -/
theorem onUndo_removes_follower_witness :
    onUndo ctxEx undoEx = [Effect.kvDeleteFollower "https://remote.example/users/alice"] ∧
    lookupFollower (applyEffects followersEx (onUndo ctxEx undoEx))
      "https://remote.example/users/alice" = none :=
  ⟨(onUndo_removes_follower ctxEx undoEx followEx
      "https://remote.example/follows/1" "https://remote.example/users/alice"
      "https://example.com/users/me" rfl rfl rfl rfl (by decide)).1,
   (onUndo_removes_follower ctxEx undoEx followEx
      "https://remote.example/follows/1" "https://remote.example/users/alice"
      "https://example.com/users/me" rfl rfl rfl rfl (by decide)).2.2 followersEx⟩

set_option maxRecDepth 10000 in
/-- Counterexample to C5 as stated: `undoNoIdEx` wraps a Follow that
references the configured actor, and the Undo carries an actor URI, yet
the listener performs no effect — the wrapped Follow lacks an id, a
condition the code also requires — so the follower record survives. -/
theorem undo_without_follow_id_no_removal :
    undoNoIdEx.object = some (UndoObject.follow followNoIdEx) ∧
    undoNoIdEx.actorId = some "https://remote.example/users/alice" ∧
    followNoIdEx.objectId = some "https://example.com/users/me" ∧
    parseUri ctxEx.baseUrl "https://example.com/users/me" =
      some (ParsedUri.actor activityPubHandle) ∧
    onUndo ctxEx undoNoIdEx = [] ∧
    lookupFollower (applyEffects followersEx (onUndo ctxEx undoNoIdEx))
      "https://remote.example/users/alice" = some remoteEx.toRecord := by
  decide

/-- Claim C6: the actor dispatcher returns nothing for every identifier
other than the configured handle (exact string comparison, no aliasing),
and for the configured handle returns the descriptor with the identity
fields, the inbox/outbox/followers collection URIs derived from the
handle, and the public halves of the key pairs from the key vault. -/
theorem actor_dispatcher_describe (ctx : Ctx) (fresh : KeyPair)
    (store : Option StoredKeyEntry) :
    (∀ ident : String, ident ≠ activityPubHandle →
      actorDispatcher ctx fresh store ident = none) ∧
    actorDispatcher ctx fresh store activityPubHandle =
      some
        { id := getActorUri ctx.baseUrl activityPubHandle
          name := "Me"
          summary := "This is my photo!"
          preferredUsername := activityPubHandle
          url := ctx.baseUrl ++ "/"
          inbox := getInboxUri ctx.baseUrl activityPubHandle
          outbox := getOutboxUri ctx.baseUrl activityPubHandle
          followers := getFollowersUri ctx.baseUrl activityPubHandle
          publicKeys := (keyPairsDispatcher fresh store activityPubHandle).1.map
            (fun kp => kp.publicKey) } := by
  constructor
  · intro ident hne
    simp [actorDispatcher, hne]
  · simp [actorDispatcher]

set_option maxRecDepth 10000 in
/-- Witness for C6: the handle `alice` differs from the configured handle
and is not found, while the configured handle `me` is found. -/
theorem actor_dispatcher_describe_witness :
    actorDispatcher ctxEx keyPairEx none "alice" = none ∧
    actorDispatcher ctxEx keyPairEx none activityPubHandle ≠ none :=
  ⟨(actor_dispatcher_describe ctxEx keyPairEx none).1 "alice" (by decide),
   by rw [(actor_dispatcher_describe ctxEx keyPairEx none).2]; exact Option.some_ne_none _⟩

/-- Claim C7: the key pairs dispatcher is idempotent under sequential use
for the configured handle.  A first call with an empty store returns the
freshly generated pair and the post-call store already holds that pair
exported to JWK form (the persistence happens inside the call, before it
returns); a second sequential call — whatever fresh pair its generator
would offer — returns byte-identical key material and leaves the store
unchanged. -/
theorem key_pairs_idempotent (g1 g2 : KeyPair) :
    (keyPairsDispatcher g1 none activityPubHandle).1 = [g1] ∧
    (keyPairsDispatcher g1 none activityPubHandle).2 =
      some { privateKey := exportJwk g1.privateKey
             publicKey := exportJwk g1.publicKey } ∧
    (keyPairsDispatcher g2 (keyPairsDispatcher g1 none activityPubHandle).2
        activityPubHandle).1 =
      (keyPairsDispatcher g1 none activityPubHandle).1 ∧
    (keyPairsDispatcher g2 (keyPairsDispatcher g1 none activityPubHandle).2
        activityPubHandle).2 =
      (keyPairsDispatcher g1 none activityPubHandle).2 := by
  refine ⟨rfl, rfl, ?_, rfl⟩
  simp [keyPairsDispatcher, importJwk, exportJwk]

/-- Claim C8: the outbox listing contains only translations of non-hidden
repository content, and the outbox counter equals the number of items
collected across the whole pagination (which terminates because every
page reports no next cursor). -/
theorem outbox_no_hidden_and_count (ctx : Ctx) (repo : List Photo)
    (uuidOf : String → String) (fuel : Nat) (hfuel : 1 ≤ fuel)
    (cursor : Option String) :
    (∀ a ∈ collectPages ctx repo uuidOf fuel cursor,
      ∃ p, p ∈ repo ∧ p.hidden = false ∧ a = createActivity ctx p (uuidOf p.id)) ∧
    outboxCounter repo activityPubHandle =
      some (collectPages ctx repo uuidOf fuel cursor).length := by
  obtain ⟨n, rfl⟩ : ∃ n, fuel = n + 1 := ⟨fuel - 1, (Nat.succ_pred_eq_of_pos hfuel).symm⟩
  have hcp : collectPages ctx repo uuidOf (n + 1) cursor =
      (getPhotos repo).map (fun p => createActivity ctx p (uuidOf p.id)) := by
    simp [collectPages, outboxDispatcher]
  constructor
  · intro a ha
    rw [hcp] at ha
    obtain ⟨p, hp, rfl⟩ := List.mem_map.1 ha
    obtain ⟨hp1, hp2⟩ := List.mem_filter.1 hp
    exact ⟨p, hp1, by simpa using hp2, rfl⟩
  · simp [outboxCounter, getPhotosMetaCount, hcp, getPhotos]

set_option maxRecDepth 10000 in
/-- Witness for C8, on the concrete repository `repoEx` (one public, one
hidden photo): the single listed item is the public photo's translation,
and the counter equals the one-page item count. -/
theorem outbox_no_hidden_and_count_witness :
    (∃ p, p ∈ repoEx ∧ p.hidden = false ∧
      createActivity ctxEx publicPhotoEx (uuidOfEx publicPhotoEx.id) =
        createActivity ctxEx p (uuidOfEx p.id)) ∧
    outboxCounter repoEx activityPubHandle =
      some (collectPages ctxEx repoEx uuidOfEx 1 none).length :=
  ⟨(outbox_no_hidden_and_count ctxEx repoEx uuidOfEx 1 (by decide) none).1
      (createActivity ctxEx publicPhotoEx (uuidOfEx publicPhotoEx.id)) (by decide),
   (outbox_no_hidden_and_count ctxEx repoEx uuidOfEx 1 (by decide) none).2⟩

/-- Claim C9: a numeric metadata field equal to 0 is dropped from the
note exactly like an absent one (truthiness test), and non-zero values
are attached coerced to their display strings. -/
theorem zero_metadata_dropped (ctx : Ctx) (p : Photo) :
    createNote ctx { p with iso := some 0, focalLength := some 0 } =
      createNote ctx { p with iso := none, focalLength := none } ∧
    ∀ v w : Int, v ≠ 0 → w ≠ 0 →
      (createNote ctx { p with iso := some v, focalLength := some w }).attachments =
        [{ mediaType := "image/jpeg", url := p.url,
           attachments := [{ name := "ISO", value := toString v },
                           { name := "Focal Length", value := toString w }] }] := by
  constructor
  · rfl
  · intro v w hv hw
    simp [createNote, numericProp, hv, hw]

set_option maxRecDepth 10000 in
/-- Witness for C9 at concrete non-zero EXIF values 100 and 35. -/
theorem zero_metadata_dropped_witness :
    (createNote ctxEx
        { publicPhotoEx with iso := some 100, focalLength := some 35 }).attachments =
      [{ mediaType := "image/jpeg", url := publicPhotoEx.url,
         attachments := [{ name := "ISO", value := "100" },
                         { name := "Focal Length", value := "35" }] }] := by
  have h := (zero_metadata_dropped ctxEx publicPhotoEx).2 100 35 (by decide) (by decide)
  simpa using h

/-- Claim C10: for the configured handle the outbox dispatcher returns
the entire (public) collection in a single page whose next cursor is
null, whatever cursor is supplied, so pagination never spans more than
one page. -/
theorem outbox_single_page (ctx : Ctx) (repo : List Photo)
    (uuidOf : String → String) (cursor : Option String) :
    outboxDispatcher ctx repo uuidOf activityPubHandle cursor =
      some { items := (getPhotos repo).map (fun p => createActivity ctx p (uuidOf p.id))
             nextCursor := none } := by
  simp [outboxDispatcher]

end Fedify
